import Mathlib

/-!
# Verification of the Ensembl Tark data provider
  (cdot/hgvs/dataproviders/ensembl_tark_data_provider.py)

A shallow embedding of the coordinate-normalization core of the
EnsemblTarkDataProvider class.  Python dynamic values are modelled
structurally; Python exceptions become an explicit error type threaded
through Except; the mutable provider object (response cache plus the
side effect of issuing HTTP requests) becomes explicit state passing
over ProviderState, with a log of fetched URLs standing in for the
network activity (its length is the fetch-invocation count).

Python integers are modelled as Int, Python strings as String, missing
or null JSON fields as Option.  Remote behaviour is a parameter
env : String -> HttpResponse mapping each URL to the response the
transport would deliver for it.
-/

namespace EnsemblTark

/-- The Python exceptions the provider code can raise, by class.
hgvsDataNotAvailable is HGVSDataNotAvailableError (raised both for the
TranscriptNotFound condition and by the alignment-method gate);
valueErr is ValueError (raised for an unsupported contig, by the
non-JSON-response check, and by int() on a non-numeric version);
typeErr/keyErr/indexErr are the TypeError/KeyError/IndexError that
Python raises on subscripting None, a missing dict key, or an
out-of-range list index. -/
inductive PyErr where
  | hgvsDataNotAvailable (msg : String)
  | valueErr (msg : String)
  | typeErr (msg : String)
  | keyErr (msg : String)
  | indexErr (msg : String)
  deriving DecidableEq

/-- One element of a transcript record exons list: the fields of the
raw Tark exon object that the provider reads (loc_start, loc_end,
exon_order). -/
structure ExonRecord where
  loc_start : Int
  loc_end : Int
  exon_order : Int
  deriving DecidableEq

/-- One raw transcript record, as returned by the Tark transcript
endpoint, restricted to the fields the embedded operations read.
assembly_name stands for record["assembly"]["assembly_name"], and
genes for the list of record["genes"][i]["name"] values. -/
structure TranscriptRecord where
  assembly_name : String
  loc_strand : Int
  exons : List ExonRecord
  five_prime_utr_seq : Option String
  three_prime_utr_seq : Option String
  genes : List String
  deriving DecidableEq

/-- The JSON body of a successful transcript-endpoint response: either
an object carrying a results list, or an object with no results key
(so that data["results"] raises KeyError). -/
inductive TarkData where
  | noResultsKey
  | results (rs : List TranscriptRecord)
  deriving DecidableEq

/-- What the HTTP transport hands back for one GET: the ok flag, the
value of response.headers.get for Content-Type (none when the header
is absent), and the parsed JSON body. -/
structure HttpResponse where
  ok : Bool
  contentType : Option String
  jsonBody : TarkData

/-- The mutable state of one provider instance: the
self.transcript_results cache (a Python dict, modelled as an
association list in insertion order) and the log of URLs fetched so
far (the fetch-invocation counter of the tests). -/
structure ProviderState where
  transcript_results : List (String × List TranscriptRecord)
  fetch_log : List String
  deriving DecidableEq

/-- The static assembly configuration built in __init__ from the
external per-assembly accession maps: the configured assembly names
(keys of self.assembly_maps, in order) and the flattened
self.assembly_by_contig index from contig accession to assembly
name. -/
structure AssemblyConfig where
  assemblies : List String
  assembly_by_contig : List (String × String)

/-- Python dict assignment d[k] = v on a dict modelled as an
insertion-ordered association list: overwrite in place if the key is
present, else append. -/
def dictInsert (d : List (String × List TranscriptRecord)) (k : String)
    (v : List TranscriptRecord) : List (String × List TranscriptRecord) :=
  if (d.lookup k).isSome then
    d.map (fun p => if p.1 == k then (k, v) else p)
  else
    d ++ [(k, v)]

/-- Python truthiness of a str-or-None value: None and the empty
string are falsy, every other string is truthy. -/
def pyTruthy : Option String → Bool
  | none => false
  | some s => s.length != 0

/-- Python len() of a str-or-None value (0 on None; the code only
applies len to values already known truthy). -/
def utrLength : Option String → Int
  | none => 0
  | some s => s.length

/-- needle starts the haystack (character-level, executable by kernel
reduction). -/
def charsStartWith : List Char → List Char → Bool
  | [], _ => true
  | _ :: _, [] => false
  | a :: as, b :: bs => a == b && charsStartWith as bs

/-- needle occurs somewhere in the haystack (character-level). -/
def charsContain (needle : List Char) : List Char → Bool
  | [] => charsStartWith needle []
  | b :: bs => charsStartWith needle (b :: bs) || charsContain needle bs

/-- Python membership test needle in haystack for strings: true iff
needle occurs as a contiguous substring of haystack. -/
def pyInStr (needle haystack : String) : Bool :=
  charsContain needle.toList haystack.toList

/-- Python str.split(".") at the character level: split on every dot,
keeping empty parts, so that the empty string yields one empty part. -/
def splitDot : List Char → List (List Char)
  | [] => [[]]
  | c :: cs =>
      let r := splitDot cs
      if c == '.' then [] :: r
      else
        match r with
        | [] => [[c]]
        | h :: t => (c :: h) :: t

/-- Python str.split(".") on strings. -/
def pySplitDot (s : String) : List String :=
  (splitDot s.toList).map (fun l => String.mk l)

/-- Decimal digit parse of one character. -/
def charDigit (c : Char) : Option Nat :=
  if c.isDigit then some (c.toNat - 48) else none

/-- Parse a nonempty all-digit character list as a Nat. -/
def charsToNat : List Char → Option Nat
  | [] => none
  | cs => cs.foldl (fun acc c => match acc, charDigit c with
      | some n, some d => some (n * 10 + d)
      | _, _ => none) (some 0)

/-- Python int() on a string, restricted to the forms the provider can
meet: an optional minus sign followed by decimal digits; anything else
raises ValueError (modelled as none). -/
def pyInt : String → Option Int
  | s =>
    match s.toList with
    | '-' :: rest => (charsToNat rest).map (fun n => -(n : Int))
    | cs => (charsToNat cs).map (fun n => (n : Int))

/-- EnsemblTarkDataProvider.NCBI_ALN_METHOD. -/
def NCBI_ALN_METHOD : String := "splign"

/-- EnsemblTarkDataProvider._get_from_url: on a non-ok response return
None; on an ok response, test "application/json" in the Content-Type
header value -- a TypeError when the header is absent (membership test
against None), the non-JSON ValueError when the test fails, and the
parsed body when it succeeds. -/
def getFromUrl (resp : HttpResponse) : Except PyErr (Option TarkData) :=
  if resp.ok then
    match resp.contentType with
    | none => .error (.typeErr "argument of type NoneType is not iterable")
    | some ct =>
        if pyInStr "application/json" ct then
          .ok (some resp.jsonBody)
        else
          .error (.valueErr "Non-json response received - are you behind a firewall?")
  else
    .ok none

/-- EnsemblTarkDataProvider._get_transcript_id_and_version: split the
accession on every dot; with exactly two parts the second is parsed by
int() (ValueError when non-numeric), otherwise the whole accession is
the identifier and the version is None. -/
def getTranscriptIdAndVersion (transcript_accession : String) :
    Except PyErr (String × Option Int) :=
  match pySplitDot transcript_accession with
  | [identifier, v] =>
      match pyInt v with
      | some n => .ok (identifier, some n)
      | none => .error (.valueErr ("invalid literal for int with base 10: " ++ v))
  | _ => .ok (transcript_accession, none)

/-- Python str() of an int-or-None value as interpolated by the
f-string building the query URL (None prints as "None"). -/
def pyStrOptInt : Option Int → String
  | none => "None"
  | some n => toString n

/-- The transcript-endpoint URL built in _get_transcript_results from
the split accession. -/
def transcriptUrl (stable_id : String) (version : Option Int) : String :=
  "https://tark.ensembl.org/api/transcript/?stable_id=" ++ stable_id ++
    "&stable_id_version=" ++ pyStrOptInt version ++ "&expand_all=true"

/-- EnsemblTarkDataProvider._get_transcript_results: return the cached
list when the accession is a key of the cache; otherwise build the
query URL, fetch it (logging the fetch), and walk the checks of the source:
data["results"] raises TypeError when data is None and KeyError when
the results key is missing; a truthy results list of length >= 1 is
stored in the cache under the original unsplit accession and returned;
everything else falls through to the HGVSDataNotAvailableError
raise. -/
def getTranscriptResults (env : String → HttpResponse) (tx_ac : String)
    (s : ProviderState) : Except PyErr (List TranscriptRecord) × ProviderState :=
  match s.transcript_results.lookup tx_ac with
  | some rs => (.ok rs, s)
  | none =>
    match getTranscriptIdAndVersion tx_ac with
    | .error e => (.error e, s)
    | .ok (stable_id, version) =>
      let url := transcriptUrl stable_id version
      let s1 : ProviderState := { s with fetch_log := s.fetch_log ++ [url] }
      match getFromUrl (env url) with
      | .error e => (.error e, s1)
      | .ok none => (.error (.typeErr "NoneType object is not subscriptable"), s1)
      | .ok (some .noResultsKey) => (.error (.keyErr "results"), s1)
      | .ok (some (.results rs)) =>
        if rs.length != 0 then
          if rs.length >= 1 then
            (.ok rs,
             { s1 with transcript_results := dictInsert s1.transcript_results tx_ac rs })
          else
            (.error (.hgvsDataNotAvailable
              ("Data for transcript=" ++ tx_ac ++ " did not contain results")), s1)
        else
          (.error (.hgvsDataNotAvailable
            ("Data for transcript=" ++ tx_ac ++ " did not contain results")), s1)

/-- EnsemblTarkDataProvider._get_transcript_for_contig: resolve the
contig to an assembly through assembly_by_contig, raising the
unsupported-contig ValueError (whose message lists the configured
assemblies) on a miss; otherwise scan the records in order and return
the first whose assembly name equals the resolved assembly, or None
when no record matches. -/
def getTranscriptForContig (cfg : AssemblyConfig)
    (transcript_results : List TranscriptRecord) (alt_ac : String) :
    Except PyErr (Option TranscriptRecord) :=
  match cfg.assembly_by_contig.lookup alt_ac with
  | none =>
      .error (.valueErr ("Contig " ++ alt_ac ++ " not supported. Supported assemblies: " ++
        String.intercalate ", " cfg.assemblies))
  | some assembly =>
      .ok (transcript_results.find? (fun t => t.assembly_name == assembly))

/-- Total exonic length as computed inside _get_cds_start_end: the sum
over the exons of the record of loc_end - loc_start + 1. -/
def sequenceLength (t : TranscriptRecord) : Int :=
  (t.exons.map (fun ex => ex.loc_end - ex.loc_start + 1)).sum

/-- EnsemblTarkDataProvider._get_cds_start_end: when both UTR
sequences are truthy, cds_start_i is the length of the five-prime UTR
sequence and cds_end_i is the total exonic length minus the length of
the three-prime UTR sequence; otherwise both stay None. -/
def getCdsStartEnd (t : TranscriptRecord) : Option Int × Option Int :=
  if pyTruthy t.three_prime_utr_seq && pyTruthy t.five_prime_utr_seq then
    (some (utrLength t.five_prime_utr_seq),
     some (sequenceLength t - utrLength t.three_prime_utr_seq))
  else
    (none, none)

/-- One normalized exon alignment dict as built inside get_tx_exons
(UTA coordinate model). -/
structure ExonData where
  tx_ac : String
  alt_ac : String
  alt_strand : Int
  alt_aln_method : String
  ord : Int
  tx_start_i : Int
  tx_end_i : Int
  alt_start_i : Int
  alt_end_i : Int
  cigar : String
  deriving DecidableEq

/-- The exon loop of EnsemblTarkDataProvider.get_tx_exons, applied to
the record selected for the contig.  The source sets
exon_transcript_pos = 0 before the loop and never reassigns it inside
the loop body, so the let-bound value is in scope, unchanged, for
every exon; per exon the span is loc_end - loc_start, the transcript
interval is exon_transcript_pos to exon_transcript_pos + span, the
genomic interval is the raw loc_start and loc_end, and the cigar is
the span followed by the "=" marker. -/
def txExonsOfTranscript (tx_ac alt_ac alt_aln_method : String)
    (transcript : TranscriptRecord) : List ExonData :=
  let alt_strand := transcript.loc_strand
  let exon_transcript_pos : Int := 0
  transcript.exons.map (fun exon =>
    let length := exon.loc_end - exon.loc_start
    let tx_start_i := exon_transcript_pos
    let tx_end_i := exon_transcript_pos + length
    { tx_ac := tx_ac, alt_ac := alt_ac, alt_strand := alt_strand,
      alt_aln_method := alt_aln_method, ord := exon.exon_order,
      tx_start_i := tx_start_i, tx_end_i := tx_end_i,
      alt_start_i := exon.loc_start, alt_end_i := exon.loc_end,
      cigar := toString length ++ "=" })

/-- EnsemblTarkDataProvider._check_alt_aln_method: anything other than
NCBI_ALN_METHOD raises HGVSDataNotAvailableError. -/
def checkAltAlnMethod (alt_aln_method : String) : Except PyErr Unit :=
  if alt_aln_method != NCBI_ALN_METHOD then
    .error (.hgvsDataNotAvailable ("cdot only supports alt_aln_method=" ++ NCBI_ALN_METHOD))
  else
    .ok ()

/-- EnsemblTarkDataProvider.get_tx_exons: gate the alignment method,
get the (possibly cached) transcript results, return None on a falsy
results list, select the record for the contig, then run the exon
loop.  When the contig selection yields None the source immediately
evaluates transcript["loc_strand"], which raises TypeError. -/
def get_tx_exons (env : String → HttpResponse) (cfg : AssemblyConfig)
    (tx_ac alt_ac alt_aln_method : String) (s : ProviderState) :
    Except PyErr (Option (List ExonData)) × ProviderState :=
  match checkAltAlnMethod alt_aln_method with
  | .error e => (.error e, s)
  | .ok () =>
    match getTranscriptResults env tx_ac s with
    | (.error e, s1) => (.error e, s1)
    | (.ok transcript_results, s1) =>
      if transcript_results.length == 0 then
        (.ok none, s1)
      else
        match getTranscriptForContig cfg transcript_results alt_ac with
        | .error e => (.error e, s1)
        | .ok none => (.error (.typeErr "NoneType object is not subscriptable"), s1)
        | .ok (some transcript) =>
          (.ok (some (txExonsOfTranscript tx_ac alt_ac alt_aln_method transcript)), s1)

/-- The normalized transcript-info dict built by get_tx_info. -/
structure TxInfo where
  hgnc : String
  cds_start_i : Option Int
  cds_end_i : Option Int
  tx_ac : String
  alt_ac : String
  alt_aln_method : String
  deriving DecidableEq

/-- EnsemblTarkDataProvider._get_transcript_info, applied to the value
returned by the contig selection: transcript["genes"][0]["name"]
raises TypeError when the transcript is None and IndexError when its
genes list is empty; otherwise the gene name and the CDS boundaries
are packaged up. -/
def getTranscriptInfo (transcript : Option TranscriptRecord) :
    Except PyErr (String × Option Int × Option Int) :=
  match transcript with
  | none => .error (.typeErr "NoneType object is not subscriptable")
  | some t =>
    match t.genes with
    | [] => .error (.indexErr "list index out of range")
    | gene_name :: _ =>
      let se := getCdsStartEnd t
      .ok (gene_name, se.1, se.2)

/-- EnsemblTarkDataProvider.get_tx_info: gate the alignment method,
get the (possibly cached) transcript results; when they are truthy,
select the record for the contig and build the info dict (tx_ac and
alt_ac as queried, alt_aln_method fixed to NCBI_ALN_METHOD); when they
are falsy, fall through to the HGVSDataNotAvailableError raise. -/
def get_tx_info (env : String → HttpResponse) (cfg : AssemblyConfig)
    (tx_ac alt_ac alt_aln_method : String) (s : ProviderState) :
    Except PyErr TxInfo × ProviderState :=
  match checkAltAlnMethod alt_aln_method with
  | .error e => (.error e, s)
  | .ok () =>
    match getTranscriptResults env tx_ac s with
    | (.error e, s1) => (.error e, s1)
    | (.ok transcript_results, s1) =>
      if transcript_results.length != 0 then
        match getTranscriptForContig cfg transcript_results alt_ac with
        | .error e => (.error e, s1)
        | .ok transcript =>
          match getTranscriptInfo transcript with
          | .error e => (.error e, s1)
          | .ok (hgnc, cds_start_i, cds_end_i) =>
            (.ok { hgnc := hgnc, cds_start_i := cds_start_i, cds_end_i := cds_end_i,
                   tx_ac := tx_ac, alt_ac := alt_ac, alt_aln_method := NCBI_ALN_METHOD }, s1)
      else
        (.error (.hgvsDataNotAvailable
          ("No tx_info for tx_ac=" ++ tx_ac ++ " alt_ac=" ++ alt_ac ++
            " alt_aln_method=" ++ alt_aln_method)), s1)

end EnsemblTark

deriving instance DecidableEq for Except

namespace EnsemblTark

/-! ## Concrete fixtures

The mocked data of the end-to-end example of the specification: accession
ENST00000380152.7 resolved against the GRCh38 contig CM000663.2, with
a two-exon record (genomic offsets 100 to 199 and 300 to 349). -/

/-- First exon of the example record. -/
def specExon1 : ExonRecord := { loc_start := 100, loc_end := 199, exon_order := 1 }

/-- Second exon of the example record. -/
def specExon2 : ExonRecord := { loc_start := 300, loc_end := 349, exon_order := 2 }

/-- The mocked GRCh38 transcript record of the example. -/
def specRecord38 : TranscriptRecord :=
  { assembly_name := "GRCh38", loc_strand := 1, exons := [specExon1, specExon2],
    five_prime_utr_seq := none, three_prime_utr_seq := none, genes := ["GENE1"] }

/-- A companion GRCh37 record for the same transcript (same exons,
different build). -/
def specRecord37 : TranscriptRecord :=
  { assembly_name := "GRCh37", loc_strand := 1, exons := [specExon1, specExon2],
    five_prime_utr_seq := none, three_prime_utr_seq := none, genes := ["GENE1"] }

/-- Assembly configuration with the two default assemblies and the
chromosome-1 contig accession of each. -/
def specConfig : AssemblyConfig :=
  { assemblies := ["GRCh37", "GRCh38"],
    assembly_by_contig := [("CM000663.1", "GRCh37"), ("CM000663.2", "GRCh38")] }

/-- A remote environment that answers every URL with a successful JSON
response whose results list holds exactly the GRCh38 example
record. -/
def specEnv : String → HttpResponse :=
  fun _ => { ok := true, contentType := some "application/json",
             jsonBody := .results [specRecord38] }

/-- A remote environment whose responses carry an empty results
list. -/
def emptyResultsEnv : String → HttpResponse :=
  fun _ => { ok := true, contentType := some "application/json",
             jsonBody := .results [] }

/-- A fresh provider state: empty cache, no fetches yet. -/
def emptyState : ProviderState := { transcript_results := [], fetch_log := [] }

/-- The URL the provider builds for the example accession. -/
def specUrl : String := transcriptUrl "ENST00000380152" (some 7)

/-- Provider state after the one successful example fetch. -/
def specStateAfter : ProviderState :=
  { transcript_results := [("ENST00000380152.7", [specRecord38])], fetch_log := [specUrl] }

/-- First exon alignment the code actually produces for the example. -/
def specExonDataA : ExonData :=
  { tx_ac := "ENST00000380152.7", alt_ac := "CM000663.2", alt_strand := 1,
    alt_aln_method := "splign", ord := 1, tx_start_i := 0, tx_end_i := 99,
    alt_start_i := 100, alt_end_i := 199, cigar := "99=" }

/-- Second exon alignment the code actually produces for the example. -/
def specExonDataB : ExonData :=
  { tx_ac := "ENST00000380152.7", alt_ac := "CM000663.2", alt_strand := 1,
    alt_aln_method := "splign", ord := 2, tx_start_i := 0, tx_end_i := 49,
    alt_start_i := 300, alt_end_i := 349, cigar := "49=" }

/-- Provider state whose cache already holds, for the example
accession, only the GRCh37 record. -/
def only37State : ProviderState :=
  { transcript_results := [("ENST00000380152.7", [specRecord37])], fetch_log := [] }

/-- A successful response with no Content-Type header at all. -/
def respNoContentType : HttpResponse :=
  { ok := true, contentType := none, jsonBody := .noResultsKey }

/-- A remote environment whose transport never succeeds (the 404
case: response.ok is false, so _get_from_url returns None). -/
def notOkEnv : String → HttpResponse :=
  fun _ => { ok := false, contentType := none, jsonBody := .noResultsKey }

/-- A record whose UTR sequences are longer than its single
one-base exon: total exonic length 1, five-prime UTR length 2,
three-prime UTR length 1. -/
def shortExonRecord : TranscriptRecord :=
  { assembly_name := "GRCh38", loc_strand := 1, exons := [⟨1, 1, 1⟩],
    five_prime_utr_seq := some "AA", three_prime_utr_seq := some "A", genes := ["GENE1"] }

/-- Provider state after one fetch that yielded an empty results list:
nothing cached, one URL logged. -/
def emptyResultsState : ProviderState :=
  { transcript_results := [], fetch_log := [specUrl] }

/-- A record with a six-base exon and UTR sequences of lengths 2 and
1, leaving a well-formed CDS from 2 to 5. -/
def wellFormedUtrRecord : TranscriptRecord :=
  { assembly_name := "GRCh38", loc_strand := 1, exons := [⟨1, 6, 1⟩],
    five_prime_utr_seq := some "AA", three_prime_utr_seq := some "A", genes := ["GENE1"] }

end EnsemblTark

namespace EnsemblTark

/-! ## Helper lemmas -/

/-- Looking a key up after appending a single binding for it to a
dict in which it was absent finds the new binding. -/
theorem lookup_append_single_self {β : Type} (d : List (String × β)) (k : String) (v : β)
    (h : d.lookup k = none) : (d ++ [(k, v)]).lookup k = some v := by
  rw [List.lookup_append, h]
  simp

/-- A successful lookup in a dict extended by one binding comes either
from the old dict or from the new binding. -/
theorem lookup_append_single_cases {β : Type} (d : List (String × β)) (k : String) (v : β)
    (k2 : String) (l : β) (h : (d ++ [(k, v)]).lookup k2 = some l) :
    d.lookup k2 = some l ∨ l = v := by
  rw [List.lookup_append] at h
  cases hd : d.lookup k2 with
  | some l2 =>
      rw [hd] at h
      simp at h
      left; rw [h]
  | none =>
      rw [hd] at h
      simp [List.lookup_cons] at h
      by_cases hk : k2 == k
      · rw [hk] at h
        simp at h
        right; exact h.symm
      · simp [hk] at h

/-- The first element of a list satisfying the predicate, placed after
a block of non-satisfying elements, is what find? returns. -/
theorem find?_first_match {α : Type} (p : α → Bool) (pre : List α) (r : α) (post : List α)
    (hpre : ∀ t ∈ pre, p t = false) (hr : p r = true) :
    (pre ++ r :: post).find? p = some r := by
  induction pre with
  | nil => simp [List.find?, hr]
  | cons a t ih =>
      have ha : p a = false := hpre a (by simp)
      simp only [List.cons_append, List.find?, ha]
      exact ih (fun x hx => hpre x (by simp [hx]))

end EnsemblTark

namespace EnsemblTark

/-! ## Claim theorems -/

/-- Claim C1: the claim states that the transcript-space intervals
produced by get_tx_exons are contiguous (the first tx_start_i is 0 and
each tx_end_i equals the next tx_start_i, a running offset being
advanced to each new end).  The source initializes exon_transcript_pos
to 0 and never advances it, so every exon gets tx_start_i = 0; on the
two-exon example record the first alignment ends at 99 while the
second starts at 0, refuting contiguity. -/
theorem get_tx_exons_not_contiguous :
    (get_tx_exons specEnv specConfig "ENST00000380152.7" "CM000663.2" "splign"
      emptyState).1 = .ok (some [specExonDataA, specExonDataB]) ∧
    specExonDataA.tx_end_i = 99 ∧ specExonDataB.tx_start_i = 0 ∧
    specExonDataA.tx_end_i ≠ specExonDataB.tx_start_i := by
  refine ⟨?_, by decide, by decide, by decide⟩
  decide

/-- Claim C2: on the end-to-end example of the specification (two
exons with genomic offsets 100 to 199 and 300 to 349) the claim
expects alignments tx 0 to 99 with cigar 100= and tx 100 to 149 with
cigar 50=.  The code instead produces cigars 99= and 49= (span is
loc_end - loc_start with no +1) and leaves the second exon at
transcript interval 0 to 49 (the running offset is never advanced). -/
theorem get_tx_exons_spec_example_output :
    get_tx_exons specEnv specConfig "ENST00000380152.7" "CM000663.2" "splign" emptyState =
      (.ok (some [specExonDataA, specExonDataB]), specStateAfter) ∧
    specExonDataA.tx_start_i = 0 ∧ specExonDataA.tx_end_i = 99 ∧
    specExonDataA.alt_start_i = 100 ∧ specExonDataA.alt_end_i = 199 ∧
    specExonDataA.cigar = "99=" ∧ specExonDataA.cigar ≠ "100=" ∧
    specExonDataB.tx_start_i = 0 ∧ specExonDataB.tx_end_i = 49 ∧
    specExonDataB.alt_start_i = 300 ∧ specExonDataB.alt_end_i = 349 ∧
    specExonDataB.cigar = "49=" ∧ specExonDataB.cigar ≠ "50=" ∧
    ¬(specExonDataB.tx_start_i = 100 ∧ specExonDataB.tx_end_i = 149) := by
  refine ⟨?_, by decide, by decide, by decide, by decide, by decide, by decide, by decide,
    by decide, by decide, by decide, by decide, by decide, by decide⟩
  decide

/-- Claim C3: the claim states that get_tx_info fails with the
TranscriptNotFound HGVSDataNotAvailableError both when the cache step
fails and when the contig resolver finds no matching record, and that
no other kind of exception escapes.  In the code, when the resolver
returns None, _get_transcript_info subscripts None and an unguarded
TypeError escapes (first conjunct: cached results hold only a GRCh37
record while the contig resolves to GRCh38); and when the remote fetch
returns no data (404, response not ok), data["results"] subscripts
None and a TypeError escapes before the HGVSDataNotAvailableError
raise is reached (second conjunct). -/
theorem get_tx_info_type_errors_escape :
    get_tx_info specEnv specConfig "ENST00000380152.7" "CM000663.2" "splign" only37State =
      (.error (.typeErr "NoneType object is not subscriptable"), only37State) ∧
    (getTranscriptResults notOkEnv "ENST00000380152.7" emptyState).1 =
      .error (.typeErr "NoneType object is not subscriptable") := by
  constructor
  · decide
  · decide

/-- Claim C7: with any alignment method other than splign, both
get_tx_info and get_tx_exons fail immediately with the
HGVSDataNotAvailableError raised by _check_alt_aln_method, returning
the state unchanged: no URL is fetched and the transcript cache is
untouched. -/
theorem alt_aln_method_gate (env : String → HttpResponse) (cfg : AssemblyConfig)
    (tx_ac alt_ac alt_aln_method : String) (s : ProviderState)
    (hm : alt_aln_method ≠ NCBI_ALN_METHOD) :
    get_tx_exons env cfg tx_ac alt_ac alt_aln_method s =
      (.error (.hgvsDataNotAvailable
        ("cdot only supports alt_aln_method=" ++ NCBI_ALN_METHOD)), s) ∧
    get_tx_info env cfg tx_ac alt_ac alt_aln_method s =
      (.error (.hgvsDataNotAvailable
        ("cdot only supports alt_aln_method=" ++ NCBI_ALN_METHOD)), s) ∧
    (get_tx_exons env cfg tx_ac alt_ac alt_aln_method s).2.fetch_log = s.fetch_log ∧
    (get_tx_exons env cfg tx_ac alt_ac alt_aln_method s).2.transcript_results =
      s.transcript_results ∧
    (get_tx_info env cfg tx_ac alt_ac alt_aln_method s).2.fetch_log = s.fetch_log ∧
    (get_tx_info env cfg tx_ac alt_ac alt_aln_method s).2.transcript_results =
      s.transcript_results := by
  have hc : checkAltAlnMethod alt_aln_method =
      .error (.hgvsDataNotAvailable ("cdot only supports alt_aln_method=" ++ NCBI_ALN_METHOD)) := by
    unfold checkAltAlnMethod
    simp [hm]
  have h1 : get_tx_exons env cfg tx_ac alt_ac alt_aln_method s =
      (.error (.hgvsDataNotAvailable
        ("cdot only supports alt_aln_method=" ++ NCBI_ALN_METHOD)), s) := by
    unfold get_tx_exons
    rw [hc]
  have h2 : get_tx_info env cfg tx_ac alt_ac alt_aln_method s =
      (.error (.hgvsDataNotAvailable
        ("cdot only supports alt_aln_method=" ++ NCBI_ALN_METHOD)), s) := by
    unfold get_tx_info
    rw [hc]
  exact ⟨h1, h2, by rw [h1], by rw [h1], by rw [h2], by rw [h2]⟩

/-- Witness for the alignment-method gate at a concrete call: method
blat on the example fixtures. -/
theorem alt_aln_method_gate_witness :
    get_tx_exons specEnv specConfig "ENST00000380152.7" "CM000663.2" "blat" emptyState =
      (.error (.hgvsDataNotAvailable
        ("cdot only supports alt_aln_method=" ++ NCBI_ALN_METHOD)), emptyState) ∧
    get_tx_info specEnv specConfig "ENST00000380152.7" "CM000663.2" "blat" emptyState =
      (.error (.hgvsDataNotAvailable
        ("cdot only supports alt_aln_method=" ++ NCBI_ALN_METHOD)), emptyState) :=
  ⟨(alt_aln_method_gate specEnv specConfig "ENST00000380152.7" "CM000663.2" "blat"
      emptyState (by decide)).1,
   (alt_aln_method_gate specEnv specConfig "ENST00000380152.7" "CM000663.2" "blat"
      emptyState (by decide)).2.1⟩

end EnsemblTark

namespace EnsemblTark

/-- Every alignment built by the exon loop has equal transcript-space
and genomic-space spans and a cigar of that span followed by the
no-gap marker. -/
theorem span_cigar_of_mem_txExons {tx_ac alt_ac alt_aln_method : String}
    {t : TranscriptRecord} {e : ExonData}
    (he : e ∈ txExonsOfTranscript tx_ac alt_ac alt_aln_method t) :
    e.tx_end_i - e.tx_start_i = e.alt_end_i - e.alt_start_i ∧
    e.cigar = toString (e.tx_end_i - e.tx_start_i) ++ "=" := by
  unfold txExonsOfTranscript at he
  simp only [List.mem_map] at he
  obtain ⟨exon, -, rfl⟩ := he
  constructor
  · simp
  · simp

/-- Claim C4: for every exon alignment produced by get_tx_exons, the
transcript-space span equals the genomic-space span and the cigar
string is exactly that span length followed by the no-gap marker. -/
theorem get_tx_exons_span_and_cigar (env : String → HttpResponse) (cfg : AssemblyConfig)
    (tx_ac alt_ac alt_aln_method : String) (s s1 : ProviderState)
    (l : List ExonData) (e : ExonData)
    (h : get_tx_exons env cfg tx_ac alt_ac alt_aln_method s = (.ok (some l), s1))
    (he : e ∈ l) :
    e.tx_end_i - e.tx_start_i = e.alt_end_i - e.alt_start_i ∧
    e.cigar = toString (e.tx_end_i - e.tx_start_i) ++ "=" := by
  unfold get_tx_exons at h
  split at h
  · simp at h
  · split at h
    · simp at h
    · split at h
      · simp at h
      · split at h
        · simp at h
        · simp at h
        · simp only [Prod.mk.injEq, Except.ok.injEq, Option.some.injEq] at h
          obtain ⟨h1, -⟩ := h
          subst h1
          exact span_cigar_of_mem_txExons he

/-- Witness for the span/cigar property: the first alignment of the
end-to-end example. -/
theorem get_tx_exons_span_and_cigar_witness :
    specExonDataA.tx_end_i - specExonDataA.tx_start_i =
      specExonDataA.alt_end_i - specExonDataA.alt_start_i ∧
    specExonDataA.cigar = toString (specExonDataA.tx_end_i - specExonDataA.tx_start_i) ++ "=" :=
  get_tx_exons_span_and_cigar specEnv specConfig "ENST00000380152.7" "CM000663.2" "splign"
    emptyState specStateAfter [specExonDataA, specExonDataB] specExonDataA
    (by decide) (by decide)

end EnsemblTark

namespace EnsemblTark

/-- Claim C5, counterexample: the claim asserts that whenever both UTR
sequences are present and non-empty the returned boundaries satisfy
0 <= start <= end <= total exonic length.  On a record whose UTR
sequences are together longer than its exons (total exonic length 1,
five-prime UTR length 2, three-prime UTR length 1) the code returns
start 2 and end 0, violating start <= end. -/
theorem getCdsStartEnd_bounds_counterexample :
    pyTruthy shortExonRecord.five_prime_utr_seq = true ∧
    pyTruthy shortExonRecord.three_prime_utr_seq = true ∧
    sequenceLength shortExonRecord = 1 ∧
    getCdsStartEnd shortExonRecord = (some 2, some 0) ∧
    ¬((2 : Int) ≤ 0) := by
  decide

/-- Claim C5, amended: when both UTR sequences are present and
non-empty the calculator returns exactly (length of the five-prime UTR
sequence, total exonic length minus the length of the three-prime UTR
sequence); start is always nonnegative and end never exceeds the total
exonic length, and start <= end holds whenever the two UTR lengths
together fit inside the total exonic length.  When either UTR sequence
is absent or empty both boundaries are None. -/
theorem getCdsStartEnd_formula_and_bounds (t : TranscriptRecord) :
    (pyTruthy t.five_prime_utr_seq = true → pyTruthy t.three_prime_utr_seq = true →
      getCdsStartEnd t =
        (some (utrLength t.five_prime_utr_seq),
         some (sequenceLength t - utrLength t.three_prime_utr_seq)) ∧
      0 ≤ utrLength t.five_prime_utr_seq ∧
      sequenceLength t - utrLength t.three_prime_utr_seq ≤ sequenceLength t ∧
      (utrLength t.five_prime_utr_seq + utrLength t.three_prime_utr_seq ≤ sequenceLength t →
        utrLength t.five_prime_utr_seq ≤
          sequenceLength t - utrLength t.three_prime_utr_seq)) ∧
    ((pyTruthy t.five_prime_utr_seq = false ∨ pyTruthy t.three_prime_utr_seq = false) →
      getCdsStartEnd t = (none, none)) := by
  have hlen5 : 0 ≤ utrLength t.five_prime_utr_seq := by
    unfold utrLength
    cases t.five_prime_utr_seq <;> simp
  have hlen3 : 0 ≤ utrLength t.three_prime_utr_seq := by
    unfold utrLength
    cases t.three_prime_utr_seq <;> simp
  constructor
  · intro h5 h3
    refine ⟨?_, hlen5, by omega, by omega⟩
    unfold getCdsStartEnd
    rw [h5, h3]
    simp
  · intro hor
    unfold getCdsStartEnd
    rcases hor with h | h <;> rw [h] <;> simp

/-- Witness for the amended CDS boundary claim: a record with a
six-base exon and UTR lengths 2 and 1 gets boundaries (2, 5). -/
theorem getCdsStartEnd_formula_witness :
    getCdsStartEnd wellFormedUtrRecord =
      (some (utrLength wellFormedUtrRecord.five_prime_utr_seq),
       some (sequenceLength wellFormedUtrRecord -
         utrLength wellFormedUtrRecord.three_prime_utr_seq)) ∧
    utrLength wellFormedUtrRecord.five_prime_utr_seq ≤
      sequenceLength wellFormedUtrRecord -
        utrLength wellFormedUtrRecord.three_prime_utr_seq :=
  ⟨((getCdsStartEnd_formula_and_bounds wellFormedUtrRecord).1 (by decide) (by decide)).1,
   ((getCdsStartEnd_formula_and_bounds wellFormedUtrRecord).1 (by decide)
      (by decide)).2.2.2 (by decide)⟩

/-- Claim C6: the contig resolver raises the unsupported-contig
ValueError (listing the configured assemblies) exactly when the contig
accession is not in the contig-to-assembly index; when it is, the
resolver returns the first record in list order whose assembly name
equals the resolved assembly, and None when no record matches. -/
theorem getTranscriptForContig_resolution (cfg : AssemblyConfig)
    (records : List TranscriptRecord) (alt_ac : String) :
    (cfg.assembly_by_contig.lookup alt_ac = none →
      getTranscriptForContig cfg records alt_ac =
        .error (.valueErr ("Contig " ++ alt_ac ++ " not supported. Supported assemblies: " ++
          String.intercalate ", " cfg.assemblies))) ∧
    (∀ asm, cfg.assembly_by_contig.lookup alt_ac = some asm →
      ((∀ t ∈ records, t.assembly_name ≠ asm) →
        getTranscriptForContig cfg records alt_ac = .ok none) ∧
      (∀ pre r post, records = pre ++ r :: post → r.assembly_name = asm →
        (∀ t ∈ pre, t.assembly_name ≠ asm) →
        getTranscriptForContig cfg records alt_ac = .ok (some r))) := by
  constructor
  · intro hnone
    unfold getTranscriptForContig
    rw [hnone]
  · intro asm hsome
    have heq : getTranscriptForContig cfg records alt_ac =
        .ok (records.find? (fun t => t.assembly_name == asm)) := by
      unfold getTranscriptForContig
      rw [hsome]
    constructor
    · intro hnomatch
      rw [heq]
      have hfind : records.find? (fun t => t.assembly_name == asm) = none := by
        rw [List.find?_eq_none]
        intro t ht
        simpa using hnomatch t ht
      rw [hfind]
    · intro pre r post hsplit hr hpre
      rw [heq, hsplit]
      have hfind : (pre ++ r :: post).find? (fun t => t.assembly_name == asm) = some r := by
        apply find?_first_match
        · intro t ht
          simpa using hpre t ht
        · simp [hr]
      rw [hfind]

/-- Witness for the contig resolver: with records spanning GRCh37 and
GRCh38 and the GRCh38 contig accession, the GRCh38 record is returned
even though it is second in the list; a contig belonging to neither
assembly raises the ValueError listing both assemblies. -/
theorem getTranscriptForContig_resolution_witness :
    getTranscriptForContig specConfig [specRecord37, specRecord38] "CM000663.2" =
      .ok (some specRecord38) ∧
    getTranscriptForContig specConfig [specRecord37, specRecord38] "NC_000999.1" =
      .error (.valueErr ("Contig " ++ "NC_000999.1" ++
        " not supported. Supported assemblies: " ++
        String.intercalate ", " specConfig.assemblies)) :=
  ⟨((getTranscriptForContig_resolution specConfig [specRecord37, specRecord38]
      "CM000663.2").2 "GRCh38" (by decide)).2 [specRecord37] specRecord38 [] rfl
      (by decide) (by decide),
   (getTranscriptForContig_resolution specConfig [specRecord37, specRecord38]
      "NC_000999.1").1 (by decide)⟩

/-- Claim C9: a successful transport response with no Content-Type
header at all makes _get_from_url raise an unguarded TypeError (the
membership test runs against None) instead of returning data or
raising the non-JSON ValueError; when a Content-Type header is
present the check is total and never raises TypeError. -/
theorem getFromUrl_no_content_type_raises (resp : HttpResponse)
    (hok : resp.ok = true) (hct : resp.contentType = none) :
    getFromUrl resp = .error (.typeErr "argument of type NoneType is not iterable") ∧
    ∀ resp2 : HttpResponse, ∀ ct : String, resp2.contentType = some ct →
      ∀ msg : String, getFromUrl resp2 ≠ .error (.typeErr msg) := by
  constructor
  · unfold getFromUrl
    rw [hok, hct]
    simp
  · intro resp2 ct hct2 msg
    unfold getFromUrl
    rw [hct2]
    cases resp2.ok <;> simp
    split <;> simp

/-- Witness for the missing-Content-Type TypeError at a concrete
response. -/
theorem getFromUrl_no_content_type_raises_witness :
    getFromUrl respNoContentType =
      .error (.typeErr "argument of type NoneType is not iterable") :=
  (getFromUrl_no_content_type_raises respNoContentType (by decide) (by decide)).1

end EnsemblTark

namespace EnsemblTark

/-- Inserting under a key absent from the dict appends one binding. -/
theorem dictInsert_of_miss (d : List (String × List TranscriptRecord)) (k : String)
    (v : List TranscriptRecord) (h : d.lookup k = none) : dictInsert d k v = d ++ [(k, v)] := by
  unfold dictInsert
  rw [h]
  simp

/-- A cache hit returns the cached list and leaves the state
untouched. -/
theorem getTranscriptResults_hit (env : String → HttpResponse) (tx_ac : String)
    (s : ProviderState) (rs : List TranscriptRecord)
    (h : s.transcript_results.lookup tx_ac = some rs) :
    getTranscriptResults env tx_ac s = (.ok rs, s) := by
  unfold getTranscriptResults
  rw [h]

/-- Characterization of one cache-miss run of _get_transcript_results:
either the version split raises before any fetch (state untouched), or
the fetch happens and the run returns the non-empty results list while
storing it under the unsplit accession, or the fetch happens and the
run raises with only the fetch logged. -/
theorem getTranscriptResults_miss_run (env : String → HttpResponse) (tx_ac : String)
    (s : ProviderState) (hmiss : s.transcript_results.lookup tx_ac = none) :
    (∃ e, getTranscriptIdAndVersion tx_ac = .error e ∧
        getTranscriptResults env tx_ac s = (.error e, s)) ∨
    (∃ sid ver rs,
        getTranscriptIdAndVersion tx_ac = .ok (sid, ver) ∧
        rs ≠ [] ∧
        getFromUrl (env (transcriptUrl sid ver)) = .ok (some (.results rs)) ∧
        getTranscriptResults env tx_ac s =
          (.ok rs,
            { transcript_results := s.transcript_results ++ [(tx_ac, rs)],
              fetch_log := s.fetch_log ++ [transcriptUrl sid ver] })) ∨
    (∃ sid ver e,
        getTranscriptIdAndVersion tx_ac = .ok (sid, ver) ∧
        getTranscriptResults env tx_ac s =
          (.error e, { s with fetch_log := s.fetch_log ++ [transcriptUrl sid ver] })) := by
  rcases hiv : getTranscriptIdAndVersion tx_ac with e | ⟨sid, ver⟩
  · left
    exact ⟨e, rfl, by simp only [getTranscriptResults, hmiss, hiv]⟩
  · rcases hfu : getFromUrl (env (transcriptUrl sid ver)) with e2 | d
    · right; right
      exact ⟨sid, ver, e2, rfl, by simp only [getTranscriptResults, hmiss, hiv, hfu]⟩
    · match d with
      | none =>
          right; right
          refine ⟨sid, ver, .typeErr "NoneType object is not subscriptable", rfl, ?_⟩
          simp only [getTranscriptResults, hmiss, hiv, hfu]
      | some .noResultsKey =>
          right; right
          refine ⟨sid, ver, .keyErr "results", rfl, ?_⟩
          simp only [getTranscriptResults, hmiss, hiv, hfu]
      | some (.results rs) =>
          by_cases hrs : rs = []
          
          · right; right
            refine ⟨sid, ver,
              .hgvsDataNotAvailable
                ("Data for transcript=" ++ tx_ac ++ " did not contain results"), rfl, ?_⟩
            subst hrs
            simp only [getTranscriptResults, hmiss, hiv, hfu]
            simp
          · right; left
            refine ⟨sid, ver, rs, rfl, hrs, hfu, ?_⟩
            have hlen : (rs.length != 0) = true := by
              simpa using hrs
            have hlen2 : rs.length ≥ 1 := by
              cases rs with
              | nil => exact absurd rfl hrs
              | cons a t => simp
            simp only [getTranscriptResults, hmiss, hiv, hfu, hlen, if_true]
            rw [dictInsert_of_miss _ _ _ hmiss]
            simp [hlen2]

end EnsemblTark

namespace EnsemblTark

/-- get_tx_exons depends on the provider state only through the result
of its _get_transcript_results call (given that the alignment-method
gate passes). -/
theorem get_tx_exons_congr (env : String → HttpResponse) (cfg : AssemblyConfig)
    (tx_ac alt_ac m : String) (s s2 : ProviderState)
    (r : Except PyErr (List TranscriptRecord) × ProviderState)
    (hc : checkAltAlnMethod m = .ok ())
    (h : getTranscriptResults env tx_ac s = r)
    (h2 : getTranscriptResults env tx_ac s2 = r) :
    get_tx_exons env cfg tx_ac alt_ac m s = get_tx_exons env cfg tx_ac alt_ac m s2 := by
  unfold get_tx_exons
  rw [hc, h, h2]

/-- get_tx_info depends on the provider state only through the result
of its _get_transcript_results call (given that the alignment-method
gate passes). -/
theorem get_tx_info_congr (env : String → HttpResponse) (cfg : AssemblyConfig)
    (tx_ac alt_ac m : String) (s s2 : ProviderState)
    (r : Except PyErr (List TranscriptRecord) × ProviderState)
    (hc : checkAltAlnMethod m = .ok ())
    (h : getTranscriptResults env tx_ac s = r)
    (h2 : getTranscriptResults env tx_ac s2 = r) :
    get_tx_info env cfg tx_ac alt_ac m s = get_tx_info env cfg tx_ac alt_ac m s2 := by
  unfold get_tx_info
  rw [hc, h, h2]

/-- Claim C8: a first successful transcript lookup from a cold cache
stores the result list under the original, unsplit accession string
and issues exactly one fetch; a second identical lookup returns the
same cached list without touching the state, and the public
get_tx_exons and get_tx_info calls behave identically before and after
the cache fill (so two consecutive identical calls issue exactly the
one fetch of the first). -/
theorem transcript_results_cached_once (env : String → HttpResponse) (cfg : AssemblyConfig)
    (tx_ac alt_ac : String) (s s1 : ProviderState) (rs : List TranscriptRecord)
    (hmiss : s.transcript_results.lookup tx_ac = none)
    (h1 : getTranscriptResults env tx_ac s = (.ok rs, s1)) :
    s1.transcript_results.lookup tx_ac = some rs ∧
    s1.fetch_log.length = s.fetch_log.length + 1 ∧
    getTranscriptResults env tx_ac s1 = (.ok rs, s1) ∧
    get_tx_exons env cfg tx_ac alt_ac NCBI_ALN_METHOD s1 =
      get_tx_exons env cfg tx_ac alt_ac NCBI_ALN_METHOD s ∧
    get_tx_info env cfg tx_ac alt_ac NCBI_ALN_METHOD s1 =
      get_tx_info env cfg tx_ac alt_ac NCBI_ALN_METHOD s := by
  have hc : checkAltAlnMethod NCBI_ALN_METHOD = .ok () := by decide
  rcases getTranscriptResults_miss_run env tx_ac s hmiss with
    ⟨e, hiv, heq⟩ | ⟨sid, ver, rs2, hiv, hne, hfu, heq⟩ | ⟨sid, ver, e, hiv, heq⟩
  · rw [h1] at heq
    exact absurd heq (by simp)
  · rw [h1] at heq
    simp only [Prod.mk.injEq, Except.ok.injEq] at heq
    obtain ⟨hrs, hs1⟩ := heq
    subst hrs
    subst hs1
    have hlk : (s.transcript_results ++ [(tx_ac, rs)]).lookup tx_ac = some rs :=
      lookup_append_single_self _ _ _ hmiss
    have hhit := getTranscriptResults_hit env tx_ac
      { transcript_results := s.transcript_results ++ [(tx_ac, rs)],
        fetch_log := s.fetch_log ++ [transcriptUrl sid ver] } rs hlk
    refine ⟨hlk, by simp, hhit, ?_, ?_⟩
    · exact get_tx_exons_congr env cfg tx_ac alt_ac NCBI_ALN_METHOD _ _ _ hc hhit h1
    · exact get_tx_info_congr env cfg tx_ac alt_ac NCBI_ALN_METHOD _ _ _ hc hhit h1
  · rw [h1] at heq
    exact absurd heq (by simp)

/-- Witness for the caching claim, at the end-to-end example call. -/
theorem transcript_results_cached_once_witness :
    specStateAfter.transcript_results.lookup "ENST00000380152.7" = some [specRecord38] ∧
    specStateAfter.fetch_log.length = emptyState.fetch_log.length + 1 ∧
    getTranscriptResults specEnv "ENST00000380152.7" specStateAfter =
      (.ok [specRecord38], specStateAfter) ∧
    get_tx_exons specEnv specConfig "ENST00000380152.7" "CM000663.2"
        NCBI_ALN_METHOD specStateAfter =
      get_tx_exons specEnv specConfig "ENST00000380152.7" "CM000663.2"
        NCBI_ALN_METHOD emptyState ∧
    get_tx_info specEnv specConfig "ENST00000380152.7" "CM000663.2"
        NCBI_ALN_METHOD specStateAfter =
      get_tx_info specEnv specConfig "ENST00000380152.7" "CM000663.2"
        NCBI_ALN_METHOD emptyState :=
  transcript_results_cached_once specEnv specConfig "ENST00000380152.7" "CM000663.2"
    emptyState specStateAfter [specRecord38] (by decide) (by decide)

end EnsemblTark

namespace EnsemblTark

/-- Claim C10: the transcript cache only ever maps an accession to a
non-empty results list (the non-emptiness invariant is preserved by
every run); a run that raises leaves the cache exactly as it was; and
after a cold-cache run that fetched once and raised, the accession is
still absent, so a subsequent identical call issues the remote fetch
again (no negative caching, despite the code comment about storing
None for 404). -/
theorem transcript_cache_atomic (env : String → HttpResponse) (tx_ac : String)
    (s : ProviderState) :
    ((∀ k l, s.transcript_results.lookup k = some l → l ≠ []) →
      ∀ k l, (getTranscriptResults env tx_ac s).2.transcript_results.lookup k = some l →
        l ≠ []) ∧
    (∀ e s1, getTranscriptResults env tx_ac s = (.error e, s1) →
      s1.transcript_results = s.transcript_results) ∧
    (s.transcript_results.lookup tx_ac = none →
      ∀ e s1, getTranscriptResults env tx_ac s = (.error e, s1) →
      s1.fetch_log.length = s.fetch_log.length + 1 →
      s1.transcript_results.lookup tx_ac = none ∧
      (getTranscriptResults env tx_ac s1).2.fetch_log.length = s1.fetch_log.length + 1) := by
  cases hlk : s.transcript_results.lookup tx_ac with
  | some rs =>
      have hrun := getTranscriptResults_hit env tx_ac s rs hlk
      refine ⟨?_, ?_, ?_⟩
      · intro hinv k l hl
        rw [hrun] at hl
        exact hinv k l hl
      · intro e s1 h
        rw [hrun] at h
        exact absurd h (by simp)
      · intro hnone
        exact absurd hnone (by simp)
  | none =>
      rcases getTranscriptResults_miss_run env tx_ac s hlk with
        ⟨e0, hiv, heq⟩ | ⟨sid, ver, rs, hiv, hne, hfu, heq⟩ | ⟨sid, ver, e0, hiv, heq⟩
      · refine ⟨?_, ?_, ?_⟩
        · intro hinv k l hl
          rw [heq] at hl
          exact hinv k l hl
        · intro e s1 h
          rw [heq] at h
          simp only [Prod.mk.injEq] at h
          rw [← h.2]
        · intro hnone e s1 h hflen
          rw [heq] at h
          simp only [Prod.mk.injEq] at h
          rw [← h.2] at hflen
          omega
      · refine ⟨?_, ?_, ?_⟩
        · intro hinv k l hl
          rw [heq] at hl
          rcases lookup_append_single_cases s.transcript_results tx_ac rs k l hl with
            hold | hnew
          · exact hinv k l hold
          · rw [hnew]
            exact hne
        · intro e s1 h
          rw [heq] at h
          exact absurd h (by simp)
        · intro hnone e s1 h hflen
          rw [heq] at h
          exact absurd h (by simp)
      · refine ⟨?_, ?_, ?_⟩
        · intro hinv k l hl
          rw [heq] at hl
          exact hinv k l hl
        · intro e s1 h
          rw [heq] at h
          simp only [Prod.mk.injEq] at h
          rw [← h.2]
        · intro hnone e s1 h hflen
          rw [heq] at h
          simp only [Prod.mk.injEq] at h
          obtain ⟨-, hs1⟩ := h
          subst hs1
          refine ⟨hlk, ?_⟩
          rcases getTranscriptResults_miss_run env tx_ac
              { s with fetch_log := s.fetch_log ++ [transcriptUrl sid ver] } hlk with
            ⟨e2, hiv2, heq2⟩ | ⟨sid2, ver2, rs2, hiv2, hne2, hfu2, heq2⟩ |
            ⟨sid2, ver2, e2, hiv2, heq2⟩
          · rw [hiv] at hiv2
            exact absurd hiv2 (by simp)
          · rw [heq2]
            simp
          · rw [heq2]
            simp

/-- Witness for the cache-atomicity claim: an empty-results response
raises, stores nothing, and the next call fetches again. -/
theorem transcript_cache_atomic_witness :
    emptyResultsState.transcript_results.lookup "ENST00000380152.7" = none ∧
    (getTranscriptResults emptyResultsEnv "ENST00000380152.7"
        emptyResultsState).2.fetch_log.length =
      emptyResultsState.fetch_log.length + 1 :=
  (transcript_cache_atomic emptyResultsEnv "ENST00000380152.7" emptyState).2.2 (by decide)
    (.hgvsDataNotAvailable "Data for transcript=ENST00000380152.7 did not contain results")
    emptyResultsState (by decide) (by decide)

end EnsemblTark
